import Mathlib

/-!
Verification of the request-lowering layer (`src/transaction/lowering.rs`) of a
transactional key-value store client.  The lowering functions themselves are
translated directly from the source; the domain types and the low-level request
constructors they delegate to live outside the provided sources and are
modelled from the specification (marked `Modelled from the spec:` below).
-/

namespace Lowering

/-- Modelled from the spec: a `Key` is an opaque byte string (spec §3).
Bytes are represented as natural numbers. -/
abbrev Key := List Nat

/-- Modelled from the spec: a `Timestamp` is a logical clock value whose only
observable in this layer is its 64-bit numeric version (`TimestampExt::version`,
spec §4.1: a read-only projection exposing the numeric version value). -/
structure Timestamp where
  version : Nat
deriving Repr, DecidableEq

/-- Modelled from the spec: a `BoundRange` is a half-open key interval with a
start key and an optional end key; `end` absent means unbounded above
(spec §3). -/
structure BoundRange where
  start_key : Key
  end_key : Option Key
deriving Repr, DecidableEq

/-- Modelled from the spec (§4.2): `BoundRange::into_keys` splits a range into
`(start_key, end_key_or_none)`. -/
def BoundRange.into_keys (r : BoundRange) : Key × Option Key :=
  (r.start_key, r.end_key)

/-- Modelled from the spec: conversion of a `Key` into raw wire bytes
(`Key::into::<Vec<u8>>`) is the identity on the underlying byte string. -/
def Key.into_bytes (k : Key) : List Nat := k

namespace kvrpcpb

/-- Modelled from the spec: the protobuf operation kind of a mutation
(`kvrpcpb::Op`); the default protobuf value is the first variant. -/
inductive Op where
  | Put
  | Del
  | Lock
  | Rollback
  | PessimisticLock
  | CheckNotExists
deriving Repr, DecidableEq

/-- Modelled from the spec: an existence pre-condition on a key
(`kvrpcpb::Assertion`), one of {None, Exist, NotExist}; protobuf default is
`None` (spec §3: assertion defaults to none unless explicitly supplied). -/
inductive Assertion where
  | None
  | Exist
  | NotExist
deriving Repr, DecidableEq

/-- Modelled from the spec: a protobuf `Mutation`: operation kind, key,
optional value, optional assertion (spec §3). -/
structure Mutation where
  op : Op
  key : Key
  value : List Nat
  assertion : Assertion
deriving Repr, DecidableEq

/-- Modelled from the spec: `Mutation::default()` — every field at its
protobuf default. -/
def Mutation.default : Mutation :=
  { op := Op.Put, key := [], value := [], assertion := Assertion.None }

/-- Modelled from the spec: protobuf setter `Mutation::set_op`. -/
def Mutation.set_op (m : Mutation) (o : Op) : Mutation := { m with op := o }

/-- Modelled from the spec: protobuf setter `Mutation::set_assertion`. -/
def Mutation.set_assertion (m : Mutation) (a : Assertion) : Mutation :=
  { m with assertion := a }

/-- Modelled from the spec: protobuf setter `Mutation::set_key`. -/
def Mutation.set_key (m : Mutation) (k : Key) : Mutation := { m with key := k }

/-- Modelled from the spec: wire message for a single-key read. -/
structure GetRequest where
  key : Key
  version : Nat
deriving Repr, DecidableEq

/-- Modelled from the spec: wire message for a batched read. -/
structure BatchGetRequest where
  keys : List Key
  version : Nat
deriving Repr, DecidableEq

/-- Modelled from the spec: wire message for a range scan. -/
structure ScanRequest where
  start_key : Key
  end_key : Key
  version : Nat
  limit : Nat
  reverse : Bool
  key_only : Bool
deriving Repr, DecidableEq

/-- Modelled from the spec: wire message for lock resolution. -/
structure ResolveLockRequest where
  start_version : Nat
  commit_version : Nat
deriving Repr, DecidableEq

/-- Modelled from the spec: wire message for single-key lock cleanup. -/
structure CleanupRequest where
  key : Key
  start_version : Nat
deriving Repr, DecidableEq

/-- Modelled from the spec: wire message for the 2PC prewrite phase; the
pessimistic variant additionally sets `for_update_ts`, which is otherwise
left at the protobuf default 0. -/
structure PrewriteRequest where
  mutations : List Mutation
  primary_lock : Key
  start_version : Nat
  lock_ttl : Nat
  for_update_ts : Nat
deriving Repr, DecidableEq

/-- Modelled from the spec: wire message for the 2PC commit phase. -/
structure CommitRequest where
  keys : List Key
  start_version : Nat
  commit_version : Nat
deriving Repr, DecidableEq

/-- Modelled from the spec: wire message for a batched rollback. -/
structure BatchRollbackRequest where
  keys : List Key
  start_version : Nat
deriving Repr, DecidableEq

/-- Modelled from the spec: wire message releasing pessimistic locks. -/
structure PessimisticRollbackRequest where
  keys : List Key
  start_version : Nat
  for_update_ts : Nat
deriving Repr, DecidableEq

/-- Modelled from the spec: wire message acquiring pessimistic locks. -/
structure PessimisticLockRequest where
  mutations : List Mutation
  primary_lock : Key
  start_version : Nat
  lock_ttl : Nat
  for_update_ts : Nat
  need_value : Bool
deriving Repr, DecidableEq

/-- Modelled from the spec: wire message listing locks below a safepoint. -/
structure ScanLockRequest where
  start_key : Key
  max_version : Nat
  limit : Nat
deriving Repr, DecidableEq

/-- Modelled from the spec: wire message extending a transaction lock TTL. -/
structure TxnHeartBeatRequest where
  start_version : Nat
  primary_lock : Key
  advise_lock_ttl : Nat
deriving Repr, DecidableEq

/-- Modelled from the spec: wire message for non-transactional range
deletion. -/
structure DeleteRangeRequest where
  start_key : Key
  end_key : Key
deriving Repr, DecidableEq

end kvrpcpb

namespace requests

open kvrpcpb

/-- Modelled from the spec (§6): low-level constructor taking wire-shaped
fields and returning the finished `GetRequest`. -/
def new_get_request (key : Key) (version : Nat) : GetRequest :=
  { key := key, version := version }

/-- Modelled from the spec (§6): low-level constructor for `BatchGetRequest`. -/
def new_batch_get_request (keys : List Key) (version : Nat) : BatchGetRequest :=
  { keys := keys, version := version }

/-- Modelled from the spec (§6): low-level constructor for `ScanRequest`. -/
def new_scan_request (start_key end_key : Key) (version : Nat) (limit : Nat)
    (reverse key_only : Bool) : ScanRequest :=
  { start_key := start_key, end_key := end_key, version := version,
    limit := limit, reverse := reverse, key_only := key_only }

/-- Modelled from the spec (§6): low-level constructor for
`ResolveLockRequest`. -/
def new_resolve_lock_request (start_version commit_version : Nat) :
    ResolveLockRequest :=
  { start_version := start_version, commit_version := commit_version }

/-- Modelled from the spec (§6): low-level constructor for `CleanupRequest`. -/
def new_cleanup_request (key : Key) (start_version : Nat) : CleanupRequest :=
  { key := key, start_version := start_version }

/-- Modelled from the spec (§6): low-level constructor for the optimistic
`PrewriteRequest`; `for_update_ts` stays at its protobuf default 0. -/
def new_prewrite_request (mutations : List Mutation) (primary_lock : Key)
    (start_version : Nat) (lock_ttl : Nat) : PrewriteRequest :=
  { mutations := mutations, primary_lock := primary_lock,
    start_version := start_version, lock_ttl := lock_ttl, for_update_ts := 0 }

/-- Modelled from the spec (§6, §4.4): low-level constructor for the
pessimistic `PrewriteRequest`, additionally carrying `for_update_ts`. -/
def new_pessimistic_prewrite_request (mutations : List Mutation)
    (primary_lock : Key) (start_version : Nat) (lock_ttl : Nat)
    (for_update_ts : Nat) : PrewriteRequest :=
  { mutations := mutations, primary_lock := primary_lock,
    start_version := start_version, lock_ttl := lock_ttl,
    for_update_ts := for_update_ts }

/-- Modelled from the spec (§6): low-level constructor for `CommitRequest`. -/
def new_commit_request (keys : List Key) (start_version commit_version : Nat) :
    CommitRequest :=
  { keys := keys, start_version := start_version,
    commit_version := commit_version }

/-- Modelled from the spec (§6): low-level constructor for
`BatchRollbackRequest`. -/
def new_batch_rollback_request (keys : List Key) (start_version : Nat) :
    BatchRollbackRequest :=
  { keys := keys, start_version := start_version }

/-- Modelled from the spec (§6): low-level constructor for
`PessimisticRollbackRequest`. -/
def new_pessimistic_rollback_request (keys : List Key)
    (start_version for_update_ts : Nat) : PessimisticRollbackRequest :=
  { keys := keys, start_version := start_version,
    for_update_ts := for_update_ts }

/-- Modelled from the spec (§6): low-level constructor for
`PessimisticLockRequest`. -/
def new_pessimistic_lock_request (mutations : List Mutation)
    (primary_lock : Key) (start_version : Nat) (lock_ttl : Nat)
    (for_update_ts : Nat) (need_value : Bool) : PessimisticLockRequest :=
  { mutations := mutations, primary_lock := primary_lock,
    start_version := start_version, lock_ttl := lock_ttl,
    for_update_ts := for_update_ts, need_value := need_value }

/-- Modelled from the spec (§6): low-level constructor for `ScanLockRequest`. -/
def new_scan_lock_request (start_key : Key) (max_version : Nat) (limit : Nat) :
    ScanLockRequest :=
  { start_key := start_key, max_version := max_version, limit := limit }

/-- Modelled from the spec (§6): low-level constructor for
`TxnHeartBeatRequest`. -/
def new_heart_beat_request (start_version : Nat) (primary_lock : Key)
    (ttl : Nat) : TxnHeartBeatRequest :=
  { start_version := start_version, primary_lock := primary_lock,
    advise_lock_ttl := ttl }

/-- Modelled from the spec (§6): low-level constructor for
`DeleteRangeRequest`. -/
def new_delete_range_request (start_key end_key : Key) : DeleteRangeRequest :=
  { start_key := start_key, end_key := end_key }

end requests

open kvrpcpb

/-- `new_get_request` from `lowering.rs`. -/
def new_get_request (key : Key) (timestamp : Timestamp) : GetRequest :=
  requests.new_get_request key.into_bytes timestamp.version

/-- `new_batch_get_request` from `lowering.rs`; the key iterator is modelled
as a list, drained in order. -/
def new_batch_get_request (keys : List Key) (timestamp : Timestamp) :
    BatchGetRequest :=
  requests.new_batch_get_request (keys.map Key.into_bytes) timestamp.version

/-- `new_scan_request` from `lowering.rs`: the range is split by `into_keys`
and an absent end key is replaced by the default (empty) key. -/
def new_scan_request (range : BoundRange) (timestamp : Timestamp)
    (limit : Nat) (reverse : Bool) (key_only : Bool) : ScanRequest :=
  let p := range.into_keys
  requests.new_scan_request p.1.into_bytes (p.2.getD []).into_bytes
    timestamp.version limit reverse key_only

/-- `new_resolve_lock_request` from `lowering.rs`. -/
def new_resolve_lock_request (start_version commit_version : Timestamp) :
    ResolveLockRequest :=
  requests.new_resolve_lock_request start_version.version
    commit_version.version

/-- `new_cleanup_request` from `lowering.rs`. -/
def new_cleanup_request (key : Key) (start_version : Timestamp) :
    CleanupRequest :=
  requests.new_cleanup_request key.into_bytes start_version.version

/-- `new_prewrite_request` from `lowering.rs`. -/
def new_prewrite_request (mutations : List Mutation) (primary_lock : Key)
    (start_version : Timestamp) (lock_ttl : Nat) : PrewriteRequest :=
  requests.new_prewrite_request mutations primary_lock.into_bytes
    start_version.version lock_ttl

/-- `new_pessimistic_prewrite_request` from `lowering.rs`. -/
def new_pessimistic_prewrite_request (mutations : List Mutation)
    (primary_lock : Key) (start_version : Timestamp) (lock_ttl : Nat)
    (for_update_ts : Timestamp) : PrewriteRequest :=
  requests.new_pessimistic_prewrite_request mutations primary_lock.into_bytes
    start_version.version lock_ttl for_update_ts.version

/-- `new_commit_request` from `lowering.rs`. -/
def new_commit_request (keys : List Key) (start_version : Timestamp)
    (commit_version : Timestamp) : CommitRequest :=
  requests.new_commit_request (keys.map Key.into_bytes)
    start_version.version commit_version.version

/-- `new_batch_rollback_request` from `lowering.rs`. -/
def new_batch_rollback_request (keys : List Key) (start_version : Timestamp) :
    BatchRollbackRequest :=
  requests.new_batch_rollback_request (keys.map Key.into_bytes)
    start_version.version

/-- `new_pessimistic_rollback_request` from `lowering.rs`. -/
def new_pessimistic_rollback_request (keys : List Key)
    (start_version : Timestamp) (for_update_ts : Timestamp) :
    PessimisticRollbackRequest :=
  requests.new_pessimistic_rollback_request (keys.map Key.into_bytes)
    start_version.version for_update_ts.version

/-- The `PessimisticLock` capability of `lowering.rs`: a closed set of two
shapes, a bare `Key` and a `(Key, Assertion)` pair. -/
inductive PessimisticLock where
  | bareKey (k : Key)
  | keyAssertion (k : Key) (a : Assertion)
deriving Repr, DecidableEq

/-- `PessimisticLock::key`: `self` for the `Key` impl, `self.0` for the pair
impl. -/
def PessimisticLock.key : PessimisticLock → Key
  | .bareKey k => k
  | .keyAssertion k _ => k

/-- `PessimisticLock::assertion`: `Assertion::None` for the `Key` impl,
`self.1` for the pair impl. -/
def PessimisticLock.assertion : PessimisticLock → Assertion
  | .bareKey _ => Assertion.None
  | .keyAssertion _ a => a

/-- `new_pessimistic_lock_request` from `lowering.rs`: each candidate becomes
a default mutation with op, assertion and key set, in input order. -/
def new_pessimistic_lock_request (locks : List PessimisticLock)
    (primary_lock : Key) (start_version : Timestamp) (lock_ttl : Nat)
    (for_update_ts : Timestamp) (need_value : Bool) : PessimisticLockRequest :=
  requests.new_pessimistic_lock_request
    (locks.map (fun pl =>
      let mutation := Mutation.default
      let mutation := mutation.set_op Op.PessimisticLock
      let mutation := mutation.set_assertion pl.assertion
      let mutation := mutation.set_key pl.key.into_bytes
      mutation))
    primary_lock.into_bytes start_version.version lock_ttl
    for_update_ts.version need_value

/-- `new_scan_lock_request` from `lowering.rs`. -/
def new_scan_lock_request (start_key : Key) (safepoint : Timestamp)
    (limit : Nat) : ScanLockRequest :=
  requests.new_scan_lock_request start_key.into_bytes safepoint.version limit

/-- `new_heart_beat_request` from `lowering.rs`. -/
def new_heart_beat_request (start_ts : Timestamp) (primary_lock : Key)
    (ttl : Nat) : TxnHeartBeatRequest :=
  requests.new_heart_beat_request start_ts.version primary_lock.into_bytes ttl

/-- `new_delete_range_request` from `lowering.rs`: the range is split by
`into_keys` and an absent end key is replaced by the default (empty) key. -/
def new_delete_range_request (range : BoundRange) : DeleteRangeRequest :=
  let p := range.into_keys
  requests.new_delete_range_request p.1.into_bytes (p.2.getD []).into_bytes

/-- Mapping `Key.into_bytes` over a key list is the identity: the wire
conversion of a key does not change its bytes. -/
theorem map_into_bytes (keys : List Key) : keys.map Key.into_bytes = keys :=
  List.map_id keys

/-- C1: for all timestamps `s` and `f`, the `PrewriteRequest` built by
`new_pessimistic_prewrite_request` has start-version equal to the numeric
version of `s` and for-update-version equal to the numeric version of `f`;
the two are never transposed (checked concretely at 100 / 105). -/
theorem pessimistic_prewrite_timestamp_roles (mutations : List Mutation)
    (primary_lock : Key) (s f : Timestamp) (lock_ttl : Nat) :
    (new_pessimistic_prewrite_request mutations primary_lock s lock_ttl
        f).start_version = s.version ∧
    (new_pessimistic_prewrite_request mutations primary_lock s lock_ttl
        f).for_update_ts = f.version ∧
    (new_pessimistic_prewrite_request [] [] ⟨100⟩ 1 ⟨105⟩).start_version
        = 100 ∧
    (new_pessimistic_prewrite_request [] [] ⟨100⟩ 1 ⟨105⟩).for_update_ts
        = 105 :=
  ⟨rfl, rfl, rfl, rfl⟩

/-- C2: when the upper bound of a `BoundRange` is absent, both
`new_scan_request` and `new_delete_range_request` put the empty byte string
in the end-key field; when it is present, the end-key field equals the
literal upper bound; in both cases the start-key field is the range's start
key. -/
theorem range_end_key_substitution (s e : Key) (ts : Timestamp) (limit : Nat)
    (reverse key_only : Bool) :
    ((new_scan_request ⟨s, none⟩ ts limit reverse key_only).start_key = s ∧
     (new_scan_request ⟨s, none⟩ ts limit reverse key_only).end_key = []) ∧
    ((new_scan_request ⟨s, some e⟩ ts limit reverse key_only).start_key = s ∧
     (new_scan_request ⟨s, some e⟩ ts limit reverse key_only).end_key = e) ∧
    ((new_delete_range_request ⟨s, none⟩).start_key = s ∧
     (new_delete_range_request ⟨s, none⟩).end_key = []) ∧
    ((new_delete_range_request ⟨s, some e⟩).start_key = s ∧
     (new_delete_range_request ⟨s, some e⟩).end_key = e) :=
  ⟨⟨rfl, rfl⟩, ⟨rfl, rfl⟩, ⟨rfl, rfl⟩, ⟨rfl, rfl⟩⟩

/-- C3: the key sequence in the requests built by `new_batch_get_request`,
`new_commit_request`, `new_batch_rollback_request` and
`new_pessimistic_rollback_request` equals the input sequence exactly — same
length, same order, duplicates kept. -/
theorem key_sequence_preserved (keys : List Key) (ts cts f : Timestamp) :
    (new_batch_get_request keys ts).keys = keys ∧
    (new_commit_request keys ts cts).keys = keys ∧
    (new_batch_rollback_request keys ts).keys = keys ∧
    (new_pessimistic_rollback_request keys ts f).keys = keys :=
  ⟨map_into_bytes keys, map_into_bytes keys, map_into_bytes keys,
   map_into_bytes keys⟩

/-- C4: in `new_pessimistic_lock_request`, bare-key candidates yield
mutations whose assertion is `None`, and `(key, assertion)` pair candidates
yield mutations carrying exactly the pair's assertion, position by
position. -/
theorem pessimistic_lock_assertion_default (ks : List Key)
    (pairs : List (Key × Assertion)) (primary : Key) (s f : Timestamp)
    (ttl : Nat) (nv : Bool) :
    ((new_pessimistic_lock_request (ks.map PessimisticLock.bareKey) primary
        s ttl f nv).mutations.map Mutation.assertion
      = ks.map (fun _ => Assertion.None)) ∧
    ((new_pessimistic_lock_request
        (pairs.map (fun p => PessimisticLock.keyAssertion p.1 p.2)) primary
        s ttl f nv).mutations.map Mutation.assertion
      = pairs.map (fun p => p.2)) := by
  constructor <;>
    simp [new_pessimistic_lock_request,
      requests.new_pessimistic_lock_request, Mutation.default,
      Mutation.set_op, Mutation.set_assertion, Mutation.set_key,
      PessimisticLock.assertion, PessimisticLock.key, Function.comp_def]

/-- C5: `new_pessimistic_lock_request` on `n` candidates produces exactly
`n` mutations in input order, the `i`-th being a `PessimisticLock` mutation
on the `i`-th candidate's key with its assertion; the scalar fields equal
the corresponding arguments.  The §8 example (candidates
[("k1", Exist), "k2"], primary "k1", start 10, ttl 3000, for-update 12,
need-value true) is checked concretely. -/
theorem pessimistic_lock_request_shape (locks : List PessimisticLock)
    (primary : Key) (s : Timestamp) (ttl : Nat) (f : Timestamp) (nv : Bool) :
    (new_pessimistic_lock_request locks primary s ttl f nv).mutations.length
      = locks.length ∧
    (new_pessimistic_lock_request locks primary s ttl f nv).mutations
      = locks.map (fun pl =>
          { op := Op.PessimisticLock, key := pl.key, value := [],
            assertion := pl.assertion }) ∧
    (new_pessimistic_lock_request locks primary s ttl f nv).primary_lock
      = primary ∧
    (new_pessimistic_lock_request locks primary s ttl f nv).start_version
      = s.version ∧
    (new_pessimistic_lock_request locks primary s ttl f nv).lock_ttl = ttl ∧
    (new_pessimistic_lock_request locks primary s ttl f nv).for_update_ts
      = f.version ∧
    (new_pessimistic_lock_request locks primary s ttl f nv).need_value = nv ∧
    new_pessimistic_lock_request
        [PessimisticLock.keyAssertion [107, 49] Assertion.Exist,
         PessimisticLock.bareKey [107, 50]]
        [107, 49] ⟨10⟩ 3000 ⟨12⟩ true
      = { mutations :=
            [{ op := Op.PessimisticLock, key := [107, 49], value := [],
               assertion := Assertion.Exist },
             { op := Op.PessimisticLock, key := [107, 50], value := [],
               assertion := Assertion.None }],
          primary_lock := [107, 49], start_version := 10, lock_ttl := 3000,
          for_update_ts := 12, need_value := true } := by
  refine ⟨?_, ?_, rfl, rfl, rfl, rfl, rfl, by decide⟩ <;>
    simp [new_pessimistic_lock_request,
      requests.new_pessimistic_lock_request, Mutation.default,
      Mutation.set_op, Mutation.set_assertion, Mutation.set_key,
      Key.into_bytes]

/-- C6: `new_scan_request` copies `limit`, `reverse` and `key_only` into the
request unchanged, with no validation: in particular `limit = 0` and any
range (reversed or empty bounds included) still yield a request with those
verbatim values. -/
theorem scan_parameters_passthrough (r : BoundRange) (ts : Timestamp)
    (limit : Nat) (reverse key_only : Bool) :
    (new_scan_request r ts limit reverse key_only).limit = limit ∧
    (new_scan_request r ts limit reverse key_only).reverse = reverse ∧
    (new_scan_request r ts limit reverse key_only).key_only = key_only ∧
    (new_scan_request r ts 0 reverse key_only).limit = 0 :=
  ⟨rfl, rfl, rfl, rfl⟩

/-- C7: `new_prewrite_request` and `new_pessimistic_prewrite_request` place
the given mutation list in the request completely unmodified, while the
primary-lock, start-version, lock-ttl (and, pessimistically,
for-update-version) fields are set from the other arguments. -/
theorem prewrite_mutations_frame (mutations : List Mutation) (primary : Key)
    (s : Timestamp) (ttl : Nat) (f : Timestamp) :
    (new_prewrite_request mutations primary s ttl).mutations = mutations ∧
    (new_prewrite_request mutations primary s ttl).primary_lock = primary ∧
    (new_prewrite_request mutations primary s ttl).start_version
      = s.version ∧
    (new_prewrite_request mutations primary s ttl).lock_ttl = ttl ∧
    (new_pessimistic_prewrite_request mutations primary s ttl f).mutations
      = mutations ∧
    (new_pessimistic_prewrite_request mutations primary s ttl f).primary_lock
      = primary ∧
    (new_pessimistic_prewrite_request mutations primary s ttl
        f).start_version = s.version ∧
    (new_pessimistic_prewrite_request mutations primary s ttl f).lock_ttl
      = ttl ∧
    (new_pessimistic_prewrite_request mutations primary s ttl
        f).for_update_ts = f.version :=
  ⟨rfl, rfl, rfl, rfl, rfl, rfl, rfl, rfl, rfl⟩

/-- C8: every lowering function of the module is deterministic: calling it
twice with equal inputs produces equal output messages; each function is a
pure mapping from its arguments with no hidden state. -/
theorem lowering_deterministic :
    (∀ (k : Key) (ts : Timestamp),
      new_get_request k ts = new_get_request k ts) ∧
    (∀ (ks : List Key) (ts : Timestamp),
      new_batch_get_request ks ts = new_batch_get_request ks ts) ∧
    (∀ (r : BoundRange) (ts : Timestamp) (l : Nat) (rv ko : Bool),
      new_scan_request r ts l rv ko = new_scan_request r ts l rv ko) ∧
    (∀ (s c : Timestamp),
      new_resolve_lock_request s c = new_resolve_lock_request s c) ∧
    (∀ (k : Key) (s : Timestamp),
      new_cleanup_request k s = new_cleanup_request k s) ∧
    (∀ (ms : List Mutation) (p : Key) (s : Timestamp) (t : Nat),
      new_prewrite_request ms p s t = new_prewrite_request ms p s t) ∧
    (∀ (ms : List Mutation) (p : Key) (s : Timestamp) (t : Nat)
        (f : Timestamp),
      new_pessimistic_prewrite_request ms p s t f
        = new_pessimistic_prewrite_request ms p s t f) ∧
    (∀ (ks : List Key) (s c : Timestamp),
      new_commit_request ks s c = new_commit_request ks s c) ∧
    (∀ (ks : List Key) (s : Timestamp),
      new_batch_rollback_request ks s = new_batch_rollback_request ks s) ∧
    (∀ (ks : List Key) (s f : Timestamp),
      new_pessimistic_rollback_request ks s f
        = new_pessimistic_rollback_request ks s f) ∧
    (∀ (ls : List PessimisticLock) (p : Key) (s : Timestamp) (t : Nat)
        (f : Timestamp) (nv : Bool),
      new_pessimistic_lock_request ls p s t f nv
        = new_pessimistic_lock_request ls p s t f nv) ∧
    (∀ (k : Key) (sp : Timestamp) (l : Nat),
      new_scan_lock_request k sp l = new_scan_lock_request k sp l) ∧
    (∀ (s : Timestamp) (p : Key) (t : Nat),
      new_heart_beat_request s p t = new_heart_beat_request s p t) ∧
    (∀ (r : BoundRange),
      new_delete_range_request r = new_delete_range_request r) :=
  ⟨fun _ _ => rfl, fun _ _ => rfl, fun _ _ _ _ _ => rfl, fun _ _ => rfl,
   fun _ _ => rfl, fun _ _ _ _ => rfl, fun _ _ _ _ _ => rfl,
   fun _ _ _ => rfl, fun _ _ => rfl, fun _ _ _ => rfl,
   fun _ _ _ _ _ _ => rfl, fun _ _ _ => rfl, fun _ _ _ => rfl,
   fun _ => rfl⟩

/-- C9: every exposed lowering function is total: for every well-formed
key, timestamp, range, mutation list and candidate/key sequence it returns
a request message (no failure, no error signalling anywhere in the layer). -/
theorem lowering_total :
    (∀ (k : Key) (ts : Timestamp), ∃ r, new_get_request k ts = r) ∧
    (∀ (ks : List Key) (ts : Timestamp),
      ∃ r, new_batch_get_request ks ts = r) ∧
    (∀ (rg : BoundRange) (ts : Timestamp) (l : Nat) (rv ko : Bool),
      ∃ r, new_scan_request rg ts l rv ko = r) ∧
    (∀ (s c : Timestamp), ∃ r, new_resolve_lock_request s c = r) ∧
    (∀ (k : Key) (s : Timestamp), ∃ r, new_cleanup_request k s = r) ∧
    (∀ (ms : List Mutation) (p : Key) (s : Timestamp) (t : Nat),
      ∃ r, new_prewrite_request ms p s t = r) ∧
    (∀ (ms : List Mutation) (p : Key) (s : Timestamp) (t : Nat)
        (f : Timestamp),
      ∃ r, new_pessimistic_prewrite_request ms p s t f = r) ∧
    (∀ (ks : List Key) (s c : Timestamp), ∃ r, new_commit_request ks s c = r) ∧
    (∀ (ks : List Key) (s : Timestamp),
      ∃ r, new_batch_rollback_request ks s = r) ∧
    (∀ (ks : List Key) (s f : Timestamp),
      ∃ r, new_pessimistic_rollback_request ks s f = r) ∧
    (∀ (ls : List PessimisticLock) (p : Key) (s : Timestamp) (t : Nat)
        (f : Timestamp) (nv : Bool),
      ∃ r, new_pessimistic_lock_request ls p s t f nv = r) ∧
    (∀ (k : Key) (sp : Timestamp) (l : Nat),
      ∃ r, new_scan_lock_request k sp l = r) ∧
    (∀ (s : Timestamp) (p : Key) (t : Nat),
      ∃ r, new_heart_beat_request s p t = r) ∧
    (∀ (rg : BoundRange), ∃ r, new_delete_range_request rg = r) :=
  ⟨fun _ _ => ⟨_, rfl⟩, fun _ _ => ⟨_, rfl⟩,
   fun _ _ _ _ _ => ⟨_, rfl⟩, fun _ _ => ⟨_, rfl⟩,
   fun _ _ => ⟨_, rfl⟩, fun _ _ _ _ => ⟨_, rfl⟩,
   fun _ _ _ _ _ => ⟨_, rfl⟩, fun _ _ _ => ⟨_, rfl⟩,
   fun _ _ => ⟨_, rfl⟩, fun _ _ _ => ⟨_, rfl⟩,
   fun _ _ _ _ _ _ => ⟨_, rfl⟩, fun _ _ _ => ⟨_, rfl⟩,
   fun _ _ _ => ⟨_, rfl⟩, fun _ => ⟨_, rfl⟩⟩

/-- C10: `new_scan_request` and `new_delete_range_request` decompose a
`BoundRange` identically: for every range the (start-key, end-key) pair in
the scan request equals the pair in the delete-range request. -/
theorem scan_delete_range_decompose_alike (r : BoundRange) (ts : Timestamp)
    (limit : Nat) (reverse key_only : Bool) :
    (new_scan_request r ts limit reverse key_only).start_key
      = (new_delete_range_request r).start_key ∧
    (new_scan_request r ts limit reverse key_only).end_key
      = (new_delete_range_request r).end_key :=
  ⟨rfl, rfl⟩

end Lowering
